import Mathlib

/-!
Verification of the time-compensation core of the pulse activity tracker
(`pulse/core/compensation_engine.py`).

Shallow embedding conventions:
* Python floats are modelled as rationals (`ℚ`); all arithmetic in the
  engine is linear, so this is exact.
* `datetime` values are modelled as rational time values (hours on an
  absolute axis); adding `timedelta(hours=h)` is `+ h`, and
  `datetime.timestamp()` is a strictly monotone map, so comparisons and
  sort keys are preserved by modelling it as the identity.
* A Python `dict` built by insertion is modelled as an association list
  in insertion order; `dict.get(k, d)` is an association lookup with a
  default, and `d[k] = v` replaces the first binding of `k` in place or
  appends a fresh one.
* Activity records are dictionaries read with `.get(key, 0)`; an absent
  numeric key is therefore indistinguishable from the value `0`, and the
  record is modelled with plain rational score fields.  The timestamp
  field is tri-state: falsy/absent, truthy but unparseable
  (`datetime.fromisoformat` raises), or parseable into a time with an
  hour, a weekday and a calendar date.
* `logger.warning` calls are modelled by a separate counting function
  over the same input (the profile computation itself is pure).
-/

namespace Pulse

/-- `EnergyLevel` enum: LOW=1, MEDIUM=2, HIGH=3, PEAK=4. -/
inductive EnergyLevel where
  | LOW
  | MEDIUM
  | HIGH
  | PEAK
deriving DecidableEq, Fintype

/-- `.value` of the `EnergyLevel` enum members. -/
def EnergyLevel.value : EnergyLevel → ℤ
  | .LOW => 1
  | .MEDIUM => 2
  | .HIGH => 3
  | .PEAK => 4

/-- `TaskPriority` enum: LOW=1, MEDIUM=2, HIGH=3, URGENT=4. -/
inductive TaskPriority where
  | LOW
  | MEDIUM
  | HIGH
  | URGENT
deriving DecidableEq, Fintype

/-- `.value` of the `TaskPriority` enum members. -/
def TaskPriority.value : TaskPriority → ℤ
  | .LOW => 1
  | .MEDIUM => 2
  | .HIGH => 3
  | .URGENT => 4

/-- A parsed timestamp, reduced to the fields the engine reads:
`dt.hour`, `dt.weekday()` and `dt.date()` (dates as integer day numbers). -/
structure ParsedTime where
  hour : ℕ
  weekday : ℕ
  date : ℤ
deriving DecidableEq

/-- The `timestamp` entry of an activity record: absent/falsy, truthy but
unparseable (`datetime.fromisoformat` raises), or parseable. -/
inductive TimestampField where
  | absent
  | malformed
  | valid (t : ParsedTime)
deriving DecidableEq

/-- An activity record as read by the engine: `timestamp`,
`productivity_score`, `focus_score`, `duration` (seconds).  Numeric fields
are read with `.get(key, 0)`, so an absent key equals the value `0`. -/
structure Activity where
  timestamp : TimestampField
  productivity_score : ℚ
  focus_score : ℚ
  duration : ℚ
deriving DecidableEq

/-! ### EnergyProfileAnalyzer -/

/-- The `(hour, weekday, energy_score)` triples produced by the bucketing
loop of `analyze_energy_patterns`: one per activity whose timestamp,
productivity and focus are all truthy and whose timestamp parses, with
`energy_score = (productivity + focus) / 2`. -/
def energyEvents (activity_data : List Activity) : List (ℕ × ℕ × ℚ) :=
  activity_data.filterMap fun a =>
    match a.timestamp with
    | .valid t =>
        if a.productivity_score ≠ 0 ∧ a.focus_score ≠ 0 then
          some (t.hour, t.weekday, (a.productivity_score + a.focus_score) / 2)
        else none
    | _ => none

/-- Number of `logger.warning` calls made by the bucketing loop of
`analyze_energy_patterns`: one per activity that passes the truthiness
guard but whose timestamp fails to parse. -/
def parseWarnings (activity_data : List Activity) : ℕ :=
  activity_data.countP fun a =>
    a.timestamp == .malformed && a.productivity_score != 0 && a.focus_score != 0

/-- Keys of a Python dict in insertion order: first occurrence wins. -/
def insertionKeys (ks : List ℕ) : List ℕ :=
  ks.foldl (fun acc k => if k ∈ acc then acc else acc ++ [k]) []

/-- `hourly_performance[hour]`: scores appended for one hour bucket. -/
def hourlyScores (events : List (ℕ × ℕ × ℚ)) (h : ℕ) : List ℚ :=
  events.filterMap fun e => if e.1 = h then some e.2.2 else none

/-- `daily_patterns[weekday]`: scores appended for one weekday bucket. -/
def dailyScores (events : List (ℕ × ℕ × ℚ)) (d : ℕ) : List ℚ :=
  events.filterMap fun e => if e.2.1 = d then some e.2.2 else none

/-- `avg_score = sum(scores) / len(scores) if scores else 50`. -/
def avgScore (scores : List ℚ) : ℚ :=
  if scores ≠ [] then scores.sum / scores.length else 50

/-- `_classify_energy_level`: fixed score thresholds. -/
def classifyEnergyLevel (score : ℚ) : EnergyLevel :=
  if 85 ≤ score then .PEAK
  else if 70 ≤ score then .HIGH
  else if 50 ≤ score then .MEDIUM
  else .LOW

/-- The `hourly_energy` dict: for each hour key (in insertion order) the
classification of the average bucket score. -/
def hourlyEnergyLevels (events : List (ℕ × ℕ × ℚ)) : List (ℕ × EnergyLevel) :=
  (insertionKeys (events.map (·.1))).map fun h =>
    (h, classifyEnergyLevel (avgScore (hourlyScores events h)))

/-- The `daily_energy` dict, analogous to `hourlyEnergyLevels`. -/
def dailyEnergyPatterns (events : List (ℕ × ℕ × ℚ)) : List (ℕ × EnergyLevel) :=
  (insertionKeys (events.map (·.2.1))).map fun d =>
    (d, classifyEnergyLevel (avgScore (dailyScores events d)))

/-- `dict.get(h, dflt)` on an association list. -/
def lookupLevel (m : List (ℕ × EnergyLevel)) (h : ℕ) (dflt : EnergyLevel) : EnergyLevel :=
  match m.find? (fun p => p.1 == h) with
  | some p => p.2
  | none => dflt

/-- `_find_peak_hours`: hours classified HIGH or PEAK, in dict order. -/
def findPeakHours (m : List (ℕ × EnergyLevel)) : List ℕ :=
  (m.filter fun p => p.2 == EnergyLevel.PEAK || p.2 == EnergyLevel.HIGH).map (·.1)

/-- `_find_low_energy_periods`: hours classified LOW, in dict order. -/
def findLowEnergyPeriods (m : List (ℕ × EnergyLevel)) : List ℕ :=
  (m.filter fun p => p.2 == EnergyLevel.LOW).map (·.1)

/-- Membership test `level in [HIGH, PEAK]`. -/
def isHighOrPeak (e : EnergyLevel) : Bool :=
  e == .HIGH || e == .PEAK

/-- `morning_energy`: count of hours 6–11 whose level (default LOW) is
HIGH or PEAK. -/
def morningEnergy (m : List (ℕ × EnergyLevel)) : ℕ :=
  ((List.range' 6 6).filter fun h => isHighOrPeak (lookupLevel m h .LOW)).length

/-- `afternoon_energy`: count over hours 12–17. -/
def afternoonEnergy (m : List (ℕ × EnergyLevel)) : ℕ :=
  ((List.range' 12 6).filter fun h => isHighOrPeak (lookupLevel m h .LOW)).length

/-- `evening_energy`: count over hours 18–21. -/
def eveningEnergy (m : List (ℕ × EnergyLevel)) : ℕ :=
  ((List.range' 18 4).filter fun h => isHighOrPeak (lookupLevel m h .LOW)).length

/-- `_determine_energy_type`: pick the range with the greatest count of
HIGH/PEAK hours; `max` followed by `if`/`elif` gives morning, then
afternoon, as tie winners. -/
def determineEnergyType (m : List (ℕ × EnergyLevel)) : String :=
  let max_energy := max (morningEnergy m) (max (afternoonEnergy m) (eveningEnergy m))
  if max_energy = morningEnergy m then "morning"
  else if max_energy = afternoonEnergy m then "afternoon"
  else "evening"

/-- `_analyze_weekly_rhythm`: compare weekday (Mon–Fri) and weekend mean
level values; the sums divide by the fixed denominators 5 and 2. -/
def analyzeWeeklyRhythm (daily : List (ℕ × EnergyLevel)) : String :=
  let weekday_avg := (((daily.filter fun p => decide (p.1 < 5)).map
    fun p => (p.2.value : ℚ)).sum) / 5
  let weekend_avg := (((daily.filter fun p => decide (5 ≤ p.1)).map
    fun p => (p.2.value : ℚ)).sum) / 2
  if |weekday_avg - weekend_avg| < 1/2 then "consistent"
  else if weekend_avg < weekday_avg then "weekday_focused"
  else "weekend_recovery"

/-- The record returned by `analyze_energy_patterns`. -/
structure EnergyProfile where
  hourly_energy_levels : List (ℕ × EnergyLevel)
  daily_energy_patterns : List (ℕ × EnergyLevel)
  peak_hours : List ℕ
  low_energy_periods : List ℕ
  energy_type : String
  weekly_rhythm : String
deriving DecidableEq

/-- `_get_default_energy_pattern`: hours `range(9, 17)` at MEDIUM, all
seven weekdays at MEDIUM, and fixed literal extreme lists. -/
def defaultEnergyPattern : EnergyProfile where
  hourly_energy_levels := (List.range' 9 8).map fun h => (h, .MEDIUM)
  daily_energy_patterns := (List.range 7).map fun d => (d, .MEDIUM)
  peak_hours := [10, 11, 14, 15]
  low_energy_periods := [13, 16, 17]
  energy_type := "balanced"
  weekly_rhythm := "consistent"

/-- `analyze_energy_patterns`: default on empty input, otherwise the
profile assembled from the hourly and daily buckets. -/
def analyzeEnergyPatterns (activity_data : List Activity) : EnergyProfile :=
  if activity_data = [] then defaultEnergyPattern
  else
    let events := energyEvents activity_data
    let hourly := hourlyEnergyLevels events
    let daily := dailyEnergyPatterns events
    { hourly_energy_levels := hourly
      daily_energy_patterns := daily
      peak_hours := findPeakHours hourly
      low_energy_periods := findLowEnergyPeriods hourly
      energy_type := determineEnergyType hourly
      weekly_rhythm := analyzeWeeklyRhythm daily }

/-! ### TimeDebtCalculator -/

/-- The `TimeDebt` dataclass. -/
structure TimeDebt where
  deficit_hours : ℚ
  surplus_hours : ℚ
  net_balance : ℚ
  last_calculated : ℚ
  weekly_target : ℚ
  daily_target : ℚ
deriving DecidableEq

/-- `total_productive_hours`: sum of `duration / 3600` over the records
with truthy duration, `productivity_score >= 50` and a parseable truthy
timestamp (the loop guard of `calculate_current_debt`). -/
def totalProductiveHours (activity_data : List Activity) : ℚ :=
  (activity_data.filterMap fun a =>
    if a.duration ≠ 0 ∧ 50 ≤ a.productivity_score then
      match a.timestamp with
      | .valid _ => some (a.duration / 3600)
      | _ => none
    else none).sum

/-- The dates added to the `productive_days` set by the same loop. -/
def productiveDates (activity_data : List Activity) : List ℤ :=
  activity_data.filterMap fun a =>
    if a.duration ≠ 0 ∧ 50 ≤ a.productivity_score then
      match a.timestamp with
      | .valid t => some t.date
      | _ => none
    else none

/-- `len(productive_days)`: the number of distinct productive dates. -/
def productiveDayCount (activity_data : List Activity) : ℕ :=
  (productiveDates activity_data).dedup.length

/-- `calculate_current_debt`.  `weekly_target` is the configured
`weekly_target_hours` (default 40.0), `now` stands for `datetime.now()`,
`period_days` is the lookback window (default 7). -/
def calculateCurrentDebt (weekly_target now : ℚ) (activity_data : List Activity)
    (period_days : ℕ) : TimeDebt :=
  let daily_target := weekly_target / 7
  if activity_data = [] then
    { deficit_hours := 0, surplus_hours := 0, net_balance := 0
      last_calculated := now, weekly_target := weekly_target, daily_target := daily_target }
  else
    let actual_days : ℕ :=
      if productiveDayCount activity_data ≠ 0 then productiveDayCount activity_data
      else period_days
    let expected_hours := (actual_days : ℚ) * daily_target
    let net_balance := totalProductiveHours activity_data - expected_hours
    { deficit_hours := max 0 (-net_balance), surplus_hours := max 0 net_balance
      net_balance := net_balance, last_calculated := now
      weekly_target := weekly_target, daily_target := daily_target }

/-- `project_future_debt`: linear extrapolation of the deficit at the
fixed horizons 1, 3, 7, 14, 30 days, keeping only horizons that do not
exceed `days_ahead`.  The Python result maps the key string
`f-string(days)_days` to the value; the key is modelled by the day
count itself. -/
def projectFutureDebt (current_debt : TimeDebt) (days_ahead : ℤ) : List (ℕ × ℚ) :=
  let daily_deficit := current_debt.deficit_hours / 7
  (([1, 3, 7, 14, 30] : List ℕ).filter fun (d : ℕ) => decide ((d : ℤ) ≤ days_ahead)).map
    fun d => (d, current_debt.deficit_hours + daily_deficit * (d : ℚ))

/-! ### SmartScheduler -/

/-- The `CompensationTask` dataclass. -/
structure CompensationTask where
  id : String
  title : String
  estimated_duration : ℚ
  priority : TaskPriority
  required_energy : EnergyLevel
  deadline : Option ℚ
  context : String
  flexibility : ℚ
  compensation_for : Option String
deriving DecidableEq

/-- The `TimeSlot` dataclass. -/
structure TimeSlot where
  start_time : ℚ
  end_time : ℚ
  available_energy : EnergyLevel
  context_type : String
  duration_hours : ℚ
  quality_score : ℚ
deriving DecidableEq

/-- Comparison of the last two components of the task sort key
`(-priority.value, -required_energy.value)` under ascending tuple order:
higher priority first, then higher required energy. -/
def prioEnergyLE (a b : CompensationTask) : Bool :=
  decide (b.priority.value < a.priority.value) ||
    (decide (b.priority.value = a.priority.value) &&
      decide (b.required_energy.value ≤ a.required_energy.value))

/-- Ascending comparison of the full task sort key
`(deadline.timestamp() if deadline else inf, -priority.value,
-required_energy.value)` used by `generate_optimal_schedule`. -/
def taskLE (a b : CompensationTask) : Bool :=
  match a.deadline, b.deadline with
  | some da, some db =>
      decide (da < db) || (decide (da = db) && prioEnergyLE a b)
  | some _, none => true
  | none, some _ => false
  | none, none => prioEnergyLE a b

/-- Ascending comparison of the slot sort key
`(-quality_score, -available_energy.value, duration_hours)`. -/
def slotLE (a b : TimeSlot) : Bool :=
  decide (b.quality_score < a.quality_score) ||
    (decide (b.quality_score = a.quality_score) &&
      (decide (b.available_energy.value < a.available_energy.value) ||
        (decide (b.available_energy.value = a.available_energy.value) &&
          decide (a.duration_hours ≤ b.duration_hours))))

/-- `sorted(tasks, key=...)`: Python sorted is a stable merge sort. -/
def sortTasks (tasks : List CompensationTask) : List CompensationTask :=
  tasks.mergeSort taskLE

/-- `sorted(available_slots, key=...)`. -/
def sortSlots (slots : List TimeSlot) : List TimeSlot :=
  slots.mergeSort slotLE

/-- `_calculate_energy_match`. -/
def calculateEnergyMatch (required available : EnergyLevel) : ℚ :=
  if required.value ≤ available.value then
    1 - (2 / 10) * ((available.value : ℚ) - (required.value : ℚ))
  else
    6 / 10 - (3 / 10) * ((required.value : ℚ) - (available.value : ℚ))

/-- The `compatible_contexts` table of `_check_context_compatibility`,
including the `.get(task_context, [task_context])` fallback. -/
def compatibleContexts (task_context : String) : List String :=
  if task_context = "work" then ["work", "mixed"]
  else if task_context = "personal" then ["personal", "mixed"]
  else if task_context = "health" then ["personal", "health", "mixed"]
  else if task_context = "admin" then ["personal", "work", "mixed"]
  else [task_context]

/-- `_check_context_compatibility`. -/
def checkContextCompatibility (task_context slot_context : String) : Bool :=
  (compatibleContexts task_context).contains slot_context

/-- The deadline test of `_find_best_slot`: absent deadline always passes,
otherwise the task must end by the deadline. -/
def deadlineOk (task : CompensationTask) (slot : TimeSlot) : Bool :=
  match task.deadline with
  | none => true
  | some dl => decide (slot.start_time + task.estimated_duration ≤ dl)

/-- The acceptance test of `_find_best_slot`: sufficient duration, energy
match at least 0.6, compatible context, and the deadline test. -/
def slotFeasible (task : CompensationTask) (slot : TimeSlot) : Bool :=
  decide (task.estimated_duration ≤ slot.duration_hours) &&
    decide ((6 : ℚ) / 10 ≤ calculateEnergyMatch task.required_energy slot.available_energy) &&
    checkContextCompatibility task.context slot.context_type &&
    deadlineOk task slot

/-- `_find_best_slot`: index of the first slot in the (sorted, mutating)
pool that passes the acceptance test.  The source also receives the
energy profile but never reads it. -/
def findBestSlot (task : CompensationTask) (slots : List TimeSlot) : Option ℕ :=
  slots.findIdx? (slotFeasible task)

/-- `_calculate_efficiency_score`, evaluated before slot consumption. -/
def calculateEfficiencyScore (task : CompensationTask) (slot : TimeSlot) : ℚ :=
  let energy_match := calculateEnergyMatch task.required_energy slot.available_energy
  let time_efficiency := min 1 (slot.duration_hours / task.estimated_duration)
  energy_match * (4 / 10) + time_efficiency * (3 / 10) + slot.quality_score * (3 / 10)

/-- One entry of the `schedule` dict.  The source additionally stores a
reference to the (later mutated) slot object; that aliased field is not
consulted by any property here and is omitted. -/
structure ScheduleEntry where
  task : CompensationTask
  start_time : ℚ
  end_time : ℚ
  energy_match : ℚ
  efficiency_score : ℚ
deriving DecidableEq

/-- `schedule[task.id] = entry` on a dict modelled as an association list
in insertion order: replace the first binding in place, else append. -/
def dictSet (m : List (String × ScheduleEntry)) (k : String) (v : ScheduleEntry) :
    List (String × ScheduleEntry) :=
  match m with
  | [] => [(k, v)]
  | (k0, v0) :: rest =>
      if k0 = k then (k, v) :: rest else (k0, v0) :: dictSet rest k v

/-- `_update_slot_availability` for the slot found at index `i`:
fully consumed slots are removed (`list.remove` deletes the first equal
element, which is what `List.erase` does); otherwise the slot object at
`i` advances its start time and shrinks its duration in place. -/
def updateSlotAvailability (i : ℕ) (used_hours : ℚ) (all_slots : List TimeSlot) :
    List TimeSlot :=
  match all_slots[i]? with
  | none => all_slots
  | some slot =>
      if slot.duration_hours ≤ used_hours then all_slots.erase slot
      else all_slots.set i
        { slot with start_time := slot.start_time + used_hours
                    duration_hours := slot.duration_hours - used_hours }

/-- The loop state of `generate_optimal_schedule`: the `schedule` dict,
the `unscheduled_tasks` list and the mutating slot pool. -/
structure ScheduleState where
  schedule : List (String × ScheduleEntry)
  unscheduled_tasks : List CompensationTask
  slots : List TimeSlot
deriving DecidableEq

/-- One iteration of the scheduling loop for a single task. -/
def scheduleStep (st : ScheduleState) (task : CompensationTask) : ScheduleState :=
  match findBestSlot task st.slots with
  | some i =>
      match st.slots[i]? with
      | some best_slot =>
          let entry : ScheduleEntry :=
            { task := task
              start_time := best_slot.start_time
              end_time := best_slot.start_time + task.estimated_duration
              energy_match := calculateEnergyMatch task.required_energy best_slot.available_energy
              efficiency_score := calculateEfficiencyScore task best_slot }
          { schedule := dictSet st.schedule task.id entry
            unscheduled_tasks := st.unscheduled_tasks
            slots := updateSlotAvailability i task.estimated_duration st.slots }
      | none => st
  | none => { st with unscheduled_tasks := st.unscheduled_tasks ++ [task] }

/-- The whole scheduling loop over the sorted tasks. -/
def runSchedule (tasks : List CompensationTask) (slots : List TimeSlot) : ScheduleState :=
  tasks.foldl scheduleStep { schedule := [], unscheduled_tasks := [], slots := slots }

/-- `_calculate_overall_efficiency`: mean entry efficiency, 0 when the
schedule is empty. -/
def calculateOverallEfficiency (schedule : List (String × ScheduleEntry)) : ℚ :=
  if schedule = [] then 0
  else (schedule.map fun p => p.2.efficiency_score).sum / (schedule.length : ℚ)

/-- The record returned by `generate_optimal_schedule`.  The
`recommendations` list of formatted strings is presentation-only and not
modelled. -/
structure ScheduleResult where
  scheduled_tasks : List (String × ScheduleEntry)
  unscheduled_tasks : List CompensationTask
  total_scheduled_hours : ℚ
  schedule_efficiency : ℚ
deriving DecidableEq

/-- `generate_optimal_schedule`.  The energy profile and user preference
arguments are never read by the scheduling path and are omitted.
`total_scheduled_hours` sums the durations of the input tasks whose id
ended up as a key of the schedule dict. -/
def generateOptimalSchedule (tasks : List CompensationTask)
    (available_slots : List TimeSlot) : ScheduleResult :=
  let st := runSchedule (sortTasks tasks) (sortSlots available_slots)
  { scheduled_tasks := st.schedule
    unscheduled_tasks := st.unscheduled_tasks
    total_scheduled_hours :=
      ((tasks.filter fun t => st.schedule.any fun p => p.1 == t.id).map
        fun t => t.estimated_duration).sum
    schedule_efficiency := calculateOverallEfficiency st.schedule }

/-! ### Auxiliary definitions for the properties -/

/-- Mean `EnergyLevel.value` over the hours `start, ..., start+len-1`,
with hours missing from the map counting as LOW (the map's default). -/
def rangeMeanLevel (m : List (ℕ × EnergyLevel)) (start len : ℕ) : ℚ :=
  (((List.range' start len).map fun h => ((lookupLevel m h .LOW).value : ℚ)).sum) / (len : ℚ)

/-- Modelled from the spec's words, for comparison with the source's
`determineEnergyType`: the archetype chosen as the range (morning 6–12,
afternoon 12–18, evening 18–22) with the greatest mean EnergyLevel
ordinal, ties favouring morning first, then afternoon. -/
def claimMeanArchetype (m : List (ℕ × EnergyLevel)) : String :=
  let morning := rangeMeanLevel m 6 6
  let afternoon := rangeMeanLevel m 12 6
  let evening := rangeMeanLevel m 18 4
  if afternoon ≤ morning ∧ evening ≤ morning then "morning"
  else if evening ≤ afternoon then "afternoon"
  else "evening"

/-- Concrete hourly map: one PEAK hour in the morning range, MEDIUM over
the whole afternoon range.  The HIGH/PEAK count is 1/0/0 while the mean
level ordinal is 3/2, 2, 1 over the three ranges. -/
def cexHourly : List (ℕ × EnergyLevel) :=
  [(6, .PEAK), (12, .MEDIUM), (13, .MEDIUM), (14, .MEDIUM),
   (15, .MEDIUM), (16, .MEDIUM), (17, .MEDIUM)]

/-- A task that needs HIGH energy; otherwise identical to
`taskLowEnergy` (same priority, deadline, duration, context). -/
def taskHighEnergy : CompensationTask where
  id := "high_task"
  title := "needs high energy"
  estimated_duration := 2
  priority := .MEDIUM
  required_energy := .HIGH
  deadline := some 100
  context := "work"
  flexibility := 1 / 2
  compensation_for := none

/-- A task that needs LOW energy; see `taskHighEnergy`. -/
def taskLowEnergy : CompensationTask where
  id := "low_task"
  title := "needs low energy"
  estimated_duration := 2
  priority := .MEDIUM
  required_energy := .LOW
  deadline := some 100
  context := "work"
  flexibility := 1 / 2
  compensation_for := none

/-- A single work slot whose duration exactly equals the demo tasks'
estimated duration. -/
def demoSlot : TimeSlot where
  start_time := 0
  end_time := 2
  available_energy := .HIGH
  context_type := "work"
  duration_hours := 2
  quality_score := 9 / 10

/-- A well-formed productive activity record. -/
def demoActivity : Activity where
  timestamp := .valid { hour := 10, weekday := 2, date := 5 }
  productivity_score := 80
  focus_score := 60
  duration := 3600

/-- An activity whose timestamp is truthy but fails to parse. -/
def malformedActivity : Activity where
  timestamp := .malformed
  productivity_score := 80
  focus_score := 60
  duration := 0

/-- An activity with `productivity_score == 0` (a falsy score). -/
def zeroScoreActivity : Activity where
  timestamp := .valid { hour := 9, weekday := 1, date := 3 }
  productivity_score := 0
  focus_score := 70
  duration := 100

/-! ## Theorems -/

/-- C1 counterexample: the claimed ranges fail on the code.  With
`available = PEAK` and `required = LOW` the two levels satisfy
`available ≥ required`, yet the score is 0.4, below the claimed lower
bound 0.6; with `required = PEAK` and `available = LOW` the score is
-0.3, outside the claimed interval [0, 1]. -/
theorem energyMatch_claim_counterexample :
    EnergyLevel.LOW.value ≤ EnergyLevel.PEAK.value ∧
    calculateEnergyMatch .LOW .PEAK = 2 / 5 ∧
    calculateEnergyMatch .LOW .PEAK < 6 / 10 ∧
    calculateEnergyMatch .PEAK .LOW = -(3 / 10) ∧
    calculateEnergyMatch .PEAK .LOW < 0 := by
  with_unfolding_all decide

/-- C1 (amended): for every pair of EnergyLevel values the energy match
score lies in [-0.3, 1]; whenever `available ≥ required` it lies in
[0.4, 1] and is monotonically non-increasing as the gap
`available - required` grows. -/
theorem energyMatch_bounds_and_monotone :
    ∀ required available : EnergyLevel,
      -(3 / 10) ≤ calculateEnergyMatch required available ∧
      calculateEnergyMatch required available ≤ 1 ∧
      (required.value ≤ available.value →
        4 / 10 ≤ calculateEnergyMatch required available) ∧
      (∀ required2 available2 : EnergyLevel,
        required.value ≤ available.value →
        required2.value ≤ available2.value →
        available.value - required.value ≤ available2.value - required2.value →
        calculateEnergyMatch required2 available2 ≤ calculateEnergyMatch required available) := by
  with_unfolding_all decide

/-- C1 witness: the amended theorem applied at concrete levels. -/
theorem energyMatch_bounds_and_monotone_witness :
    4 / 10 ≤ calculateEnergyMatch .MEDIUM .HIGH ∧
    calculateEnergyMatch .MEDIUM .PEAK ≤ calculateEnergyMatch .MEDIUM .HIGH :=
  ⟨(energyMatch_bounds_and_monotone .MEDIUM .HIGH).2.2.1 (by decide),
   (energyMatch_bounds_and_monotone .MEDIUM .HIGH).2.2.2 .MEDIUM .PEAK
     (by decide) (by decide) (by decide)⟩

/-- C6 counterexample: on empty input the default profile's peak-hour
and low-hour lists are the fixed non-empty literals, not empty lists as
claimed. -/
theorem analyzeEnergyPatterns_empty_extremes_counterexample :
    (analyzeEnergyPatterns []).peak_hours = [10, 11, 14, 15] ∧
    (analyzeEnergyPatterns []).peak_hours ≠ [] ∧
    (analyzeEnergyPatterns []).low_energy_periods = [13, 16, 17] ∧
    (analyzeEnergyPatterns []).low_energy_periods ≠ [] := by
  with_unfolding_all decide

/-- C6 (amended): empty input returns the fixed default profile: MEDIUM
for each working hour 9–16 (`range(9, 17)`), MEDIUM for all seven
weekdays, peak hours [10, 11, 14, 15], low-energy periods [13, 16, 17],
archetype "balanced" and weekly rhythm "consistent". -/
theorem analyzeEnergyPatterns_empty_default :
    analyzeEnergyPatterns [] =
      { hourly_energy_levels := [(9, .MEDIUM), (10, .MEDIUM), (11, .MEDIUM), (12, .MEDIUM),
          (13, .MEDIUM), (14, .MEDIUM), (15, .MEDIUM), (16, .MEDIUM)]
        daily_energy_patterns := [(0, .MEDIUM), (1, .MEDIUM), (2, .MEDIUM), (3, .MEDIUM),
          (4, .MEDIUM), (5, .MEDIUM), (6, .MEDIUM)]
        peak_hours := [10, 11, 14, 15]
        low_energy_periods := [13, 16, 17]
        energy_type := "balanced"
        weekly_rhythm := "consistent" } := by
  with_unfolding_all decide

/-- C7 counterexample: on `cexHourly` the analyzer returns "morning"
even though the afternoon range has the strictly greatest mean
EnergyLevel ordinal, so the archetype is not chosen by mean ordinal; the
claim's own tie-breaking rule (modelled by `claimMeanArchetype`) picks
"afternoon" there. -/
theorem determineEnergyType_mean_counterexample :
    determineEnergyType cexHourly = "morning" ∧
    rangeMeanLevel cexHourly 6 6 < rangeMeanLevel cexHourly 12 6 ∧
    rangeMeanLevel cexHourly 18 4 ≤ rangeMeanLevel cexHourly 12 6 ∧
    claimMeanArchetype cexHourly = "afternoon" := by
  with_unfolding_all decide

/-- C7 (amended): for every hourly energy map, the archetype is the
range (morning 6–12, afternoon 12–18, evening 18–22) with the greatest
COUNT of hours rated HIGH or PEAK (absent hours counting LOW), ties
resolved in favor of morning first, then afternoon. -/
theorem determineEnergyType_max_highPeakCount (m : List (ℕ × EnergyLevel)) :
    (determineEnergyType m = "morning" ↔
      afternoonEnergy m ≤ morningEnergy m ∧ eveningEnergy m ≤ morningEnergy m) ∧
    (determineEnergyType m = "afternoon" ↔
      ¬(afternoonEnergy m ≤ morningEnergy m ∧ eveningEnergy m ≤ morningEnergy m) ∧
        eveningEnergy m ≤ afternoonEnergy m) ∧
    (determineEnergyType m = "evening" ↔
      ¬(afternoonEnergy m ≤ morningEnergy m ∧ eveningEnergy m ≤ morningEnergy m) ∧
        ¬(eveningEnergy m ≤ afternoonEnergy m)) := by
  simp only [determineEnergyType]
  generalize morningEnergy m = a
  generalize afternoonEnergy m = b
  generalize eveningEnergy m = c
  split_ifs with h1 h2 <;>
    refine ⟨?_, ?_, ?_⟩ <;> simp_all <;> omega

/-- Sign fact used for the C2 exclusivity parts: of the positive and
negative parts of a rational, at most one is positive. -/
lemma max_zero_neg_exclusive (n : ℚ) :
    (0 < max 0 (-n) → max 0 n = 0) ∧ (0 < max 0 n → max 0 (-n) = 0) := by
  constructor <;> intro h <;> rcases le_total n 0 with h1 | h1
  · exact max_eq_left h1
  · rw [max_eq_left (by linarith : -n ≤ 0)] at h
    exact absurd h (lt_irrefl 0)
  · rw [max_eq_left h1] at h
    exact absurd h (lt_irrefl 0)
  · exact max_eq_left (by linarith : -n ≤ 0)

/-- C2: for every input, the TimeDebt returned by
`calculate_current_debt` has `deficit_hours = max(0, -net_balance)` and
`surplus_hours = max(0, net_balance)`, and the two are never both
positive. -/
theorem calculateCurrentDebt_deficit_surplus_exclusive
    (weekly_target now : ℚ) (activity_data : List Activity) (period_days : ℕ) :
    (calculateCurrentDebt weekly_target now activity_data period_days).deficit_hours =
      max 0 (-(calculateCurrentDebt weekly_target now activity_data period_days).net_balance) ∧
    (calculateCurrentDebt weekly_target now activity_data period_days).surplus_hours =
      max 0 (calculateCurrentDebt weekly_target now activity_data period_days).net_balance ∧
    (0 < (calculateCurrentDebt weekly_target now activity_data period_days).deficit_hours →
      (calculateCurrentDebt weekly_target now activity_data period_days).surplus_hours = 0) ∧
    (0 < (calculateCurrentDebt weekly_target now activity_data period_days).surplus_hours →
      (calculateCurrentDebt weekly_target now activity_data period_days).deficit_hours = 0) := by
  by_cases hl : activity_data = []
  · simp [calculateCurrentDebt, hl]
  · simp only [calculateCurrentDebt, if_neg hl]
    refine ⟨trivial, trivial, ?_, ?_⟩
    · exact (max_zero_neg_exclusive _).1
    · exact (max_zero_neg_exclusive _).2

/-- C2 witness: a one-record input with a real deficit. -/
theorem calculateCurrentDebt_deficit_surplus_exclusive_witness :
    (calculateCurrentDebt 40 0 [demoActivity] 7).surplus_hours = 0 :=
  (calculateCurrentDebt_deficit_surplus_exclusive 40 0 [demoActivity] 7).2.2.1
    (by with_unfolding_all decide)

/-- C8: `project_future_debt` returns exactly the horizons
N ∈ {1, 3, 7, 14, 30} with N ≤ days_ahead, and the value at horizon N
is exactly `deficit_hours + (deficit_hours / 7) * N`. -/
theorem projectFutureDebt_linear (current_debt : TimeDebt) (days_ahead : ℤ) (N : ℕ) (v : ℚ) :
    (N, v) ∈ projectFutureDebt current_debt days_ahead ↔
      N ∈ ([1, 3, 7, 14, 30] : List ℕ) ∧ (N : ℤ) ≤ days_ahead ∧
        v = current_debt.deficit_hours + current_debt.deficit_hours / 7 * (N : ℚ) := by
  simp only [projectFutureDebt, List.mem_map, List.mem_filter, decide_eq_true_eq,
    Prod.mk.injEq]
  constructor
  · rintro ⟨d, ⟨hd, hle⟩, rfl, rfl⟩
    exact ⟨hd, hle, rfl⟩
  · rintro ⟨hN, hle, rfl⟩
    exact ⟨N, ⟨hN, hle⟩, rfl, rfl⟩

/-- Transitivity of the priority/energy tie-break comparison. -/
lemma prioEnergyLE_trans (a b c : CompensationTask) :
    prioEnergyLE a b = true → prioEnergyLE b c = true → prioEnergyLE a c = true := by
  simp only [prioEnergyLE, Bool.or_eq_true, Bool.and_eq_true, decide_eq_true_eq]
  omega

/-- Totality of the priority/energy tie-break comparison. -/
lemma prioEnergyLE_total (a b : CompensationTask) :
    prioEnergyLE a b = true ∨ prioEnergyLE b a = true := by
  simp only [prioEnergyLE, Bool.or_eq_true, Bool.and_eq_true, decide_eq_true_eq]
  omega

/-- Transitivity of the task sort-key comparison. -/
lemma taskLE_trans (a b c : CompensationTask) :
    taskLE a b = true → taskLE b c = true → taskLE a c = true := by
  rcases ha : a.deadline with _ | da <;> rcases hb : b.deadline with _ | db <;>
    rcases hc : c.deadline with _ | dc <;>
    simp only [taskLE, ha, hb, hc, Bool.or_eq_true, Bool.and_eq_true, decide_eq_true_eq] <;>
    try simp
  · exact prioEnergyLE_trans a b c
  · rintro (h1 | ⟨h1, hp1⟩) (h2 | ⟨h2, hp2⟩)
    · exact Or.inl (lt_trans h1 h2)
    · exact Or.inl (h2 ▸ h1)
    · exact Or.inl (h1 ▸ h2)
    · exact Or.inr ⟨h1.trans h2, prioEnergyLE_trans a b c hp1 hp2⟩

/-- Totality of the task sort-key comparison. -/
lemma taskLE_total (a b : CompensationTask) :
    (taskLE a b || taskLE b a) = true := by
  rw [Bool.or_eq_true]
  rcases ha : a.deadline with _ | da <;> rcases hb : b.deadline with _ | db <;>
    simp only [taskLE, ha, hb, Bool.or_eq_true, Bool.and_eq_true, decide_eq_true_eq] <;>
    try simp
  · exact prioEnergyLE_total a b
  · rcases lt_trichotomy da db with h | h | h
    · exact Or.inl (Or.inl h)
    · subst h
      rcases prioEnergyLE_total a b with hp | hp
      · exact Or.inl (Or.inr ⟨rfl, hp⟩)
      · exact Or.inr (Or.inr ⟨rfl, hp⟩)
    · exact Or.inr (Or.inl h)

/-- With identical priority and deadline, a HIGH-energy task sorts
strictly before a LOW-energy one. -/
lemma taskLE_tie (a b : CompensationTask) (hp : a.priority = b.priority)
    (hd : a.deadline = b.deadline) (hae : a.required_energy = .HIGH)
    (hbe : b.required_energy = .LOW) :
    taskLE a b = true ∧ taskLE b a = false := by
  rcases hb2 : b.deadline with _ | db <;> rw [hb2] at hd
  · simp [taskLE, hd, hb2, prioEnergyLE, hp, hae, hbe, EnergyLevel.value]
  · simp [taskLE, hd, hb2, prioEnergyLE, hp, hae, hbe, EnergyLevel.value]

/-- C3: `generate_optimal_schedule` processes the tasks in ascending
order of the key (deadline-or-+∞, −priority ordinal, −required-energy
ordinal): the processed list is a permutation of the input, pairwise
ordered by that key; two tasks with identical priority and deadline but
HIGH versus LOW required energy compare strictly in favour of the HIGH
one; and in the concrete run the HIGH-energy task is sorted first, gets
the only slot, and the LOW-energy task goes unscheduled. -/
theorem generateOptimalSchedule_task_order :
    (∀ tasks : List CompensationTask,
        (sortTasks tasks).Pairwise (fun a b => taskLE a b = true) ∧
        (sortTasks tasks).Perm tasks) ∧
    (∀ a b : CompensationTask, a.priority = b.priority → a.deadline = b.deadline →
        a.required_energy = .HIGH → b.required_energy = .LOW →
        taskLE a b = true ∧ taskLE b a = false) ∧
    sortTasks [taskLowEnergy, taskHighEnergy] = [taskHighEnergy, taskLowEnergy] ∧
    (generateOptimalSchedule [taskLowEnergy, taskHighEnergy] [demoSlot]).scheduled_tasks.map
      (fun p => p.1) = ["high_task"] ∧
    (generateOptimalSchedule [taskLowEnergy, taskHighEnergy] [demoSlot]).unscheduled_tasks =
      [taskLowEnergy] := by
  refine ⟨?_, taskLE_tie, ?_, ?_, ?_⟩
  · intro tasks
    exact ⟨List.sorted_mergeSort taskLE_trans taskLE_total tasks,
      List.mergeSort_perm tasks taskLE⟩
  · with_unfolding_all decide
  · with_unfolding_all decide
  · with_unfolding_all decide

/-- C3 witness: the tie-break part applied to the two demo tasks. -/
theorem generateOptimalSchedule_task_order_witness :
    taskLE taskHighEnergy taskLowEnergy = true ∧
    taskLE taskLowEnergy taskHighEnergy = false :=
  generateOptimalSchedule_task_order.2.1 taskHighEnergy taskLowEnergy rfl rfl rfl rfl

/-- With no slot pool, every loop iteration appends its task to
`unscheduled_tasks` and changes nothing else. -/
lemma scheduleLoop_no_slots (ts : List CompensationTask) :
    ∀ sch uns, List.foldl scheduleStep ⟨sch, uns, []⟩ ts = ⟨sch, uns ++ ts, []⟩ := by
  induction ts with
  | nil => intro sch uns; simp
  | cons t ts ih =>
      intro sch uns
      have hstep : scheduleStep ⟨sch, uns, []⟩ t = ⟨sch, uns ++ [t], []⟩ := by
        simp [scheduleStep, findBestSlot]
      simp only [List.foldl_cons, hstep, ih]
      simp

/-- C4: with an empty list of available slots, every input task ends up
in `unscheduled_tasks`, the schedule is empty, the total scheduled hours
are 0 and the schedule efficiency is 0. -/
theorem generateOptimalSchedule_empty_slots (tasks : List CompensationTask) :
    (generateOptimalSchedule tasks []).scheduled_tasks = [] ∧
    (∀ t ∈ tasks, t ∈ (generateOptimalSchedule tasks []).unscheduled_tasks) ∧
    (generateOptimalSchedule tasks []).total_scheduled_hours = 0 ∧
    (generateOptimalSchedule tasks []).schedule_efficiency = 0 := by
  have hrun : runSchedule (sortTasks tasks) (sortSlots []) = ⟨[], sortTasks tasks, []⟩ := by
    have hnil : sortSlots [] = [] := by simp [sortSlots]
    rw [hnil, runSchedule]
    simpa using scheduleLoop_no_slots (sortTasks tasks) [] []
  refine ⟨?_, ?_, ?_, ?_⟩
  · simp [generateOptimalSchedule, hrun]
  · intro t ht
    simp only [generateOptimalSchedule]
    rw [hrun]
    simpa [sortTasks] using (@List.mem_mergeSort _ taskLE t tasks).mpr ht
  · simp [generateOptimalSchedule, hrun]
  · simp [generateOptimalSchedule, hrun, calculateOverallEfficiency]

/-- C4 witness: a concrete task is returned unscheduled. -/
theorem generateOptimalSchedule_empty_slots_witness :
    taskLowEnergy ∈ (generateOptimalSchedule [taskLowEnergy] []).unscheduled_tasks :=
  (generateOptimalSchedule_empty_slots [taskLowEnergy]).2.1 taskLowEnergy (by simp)

/-- C5: consuming task time from the slot found at index `i` removes the
slot from the pool when its duration is ≤ the consumed hours (so a slot
of exactly the task's duration never stays at duration 0); otherwise the
slot's start time advances and its duration shrinks by the consumed
hours, remaining strictly positive; and the whole pool keeps every
duration ≥ 0. -/
theorem updateSlotAvailability_keeps_nonneg (i : ℕ) (used_hours : ℚ)
    (slots : List TimeSlot) (slot : TimeSlot) (hi : slots[i]? = some slot) :
    (slot.duration_hours ≤ used_hours →
      updateSlotAvailability i used_hours slots = slots.erase slot) ∧
    (used_hours < slot.duration_hours →
      updateSlotAvailability i used_hours slots =
        slots.set i { slot with start_time := slot.start_time + used_hours,
                                duration_hours := slot.duration_hours - used_hours } ∧
      0 < slot.duration_hours - used_hours) ∧
    ((∀ s ∈ slots, 0 ≤ s.duration_hours) →
      ∀ s ∈ updateSlotAvailability i used_hours slots, 0 ≤ s.duration_hours) := by
  simp only [updateSlotAvailability, hi]
  refine ⟨?_, ?_, ?_⟩
  · intro h; rw [if_pos h]
  · intro h
    rw [if_neg (not_le.mpr h)]
    exact ⟨rfl, by linarith⟩
  · intro hall s hs
    split_ifs at hs with hdur
    · exact hall s (List.mem_of_mem_erase hs)
    · rcases List.mem_or_eq_of_mem_set hs with hmem | heq
      · exact hall s hmem
      · subst heq
        show (0 : ℚ) ≤ slot.duration_hours - used_hours
        have := not_le.mp hdur
        linarith

/-- C5 witness: a slot whose duration exactly equals the consumed hours
is removed, leaving an empty pool. -/
theorem updateSlotAvailability_keeps_nonneg_witness :
    updateSlotAvailability 0 2 [demoSlot] = [] := by
  have h := (updateSlotAvailability_keeps_nonneg 0 2 [demoSlot] demoSlot rfl).1
    (by with_unfolding_all decide)
  rw [h]
  with_unfolding_all decide

/-- Two non-empty inputs with the same surviving bucket events produce
the same profile. -/
lemma analyzeEnergyPatterns_congr (l l' : List Activity)
    (h : energyEvents l = energyEvents l') (hl : l ≠ []) (hl' : l' ≠ []) :
    analyzeEnergyPatterns l = analyzeEnergyPatterns l' := by
  simp only [analyzeEnergyPatterns, if_neg hl, if_neg hl', h]

/-- C9: a sample that passes the truthiness guard but whose timestamp
fails to parse contributes to no hourly or daily bucket and exactly one
warning is logged for it; the remaining samples are processed as if it
were not there, and the same complete profile is returned. -/
theorem analyzeEnergyPatterns_skips_malformed (l1 l2 : List Activity) (a : Activity)
    (hmal : a.timestamp = .malformed)
    (hprod : a.productivity_score ≠ 0) (hfocus : a.focus_score ≠ 0)
    (hne : l1 ++ l2 ≠ []) :
    energyEvents (l1 ++ a :: l2) = energyEvents (l1 ++ l2) ∧
    analyzeEnergyPatterns (l1 ++ a :: l2) = analyzeEnergyPatterns (l1 ++ l2) ∧
    parseWarnings (l1 ++ a :: l2) = parseWarnings (l1 ++ l2) + 1 := by
  have hev : energyEvents (l1 ++ a :: l2) = energyEvents (l1 ++ l2) := by
    simp [energyEvents, List.filterMap_append, List.filterMap_cons, hmal]
  refine ⟨hev, analyzeEnergyPatterns_congr _ _ hev (by simp) hne, ?_⟩
  simp [parseWarnings, List.countP_append, List.countP_cons, hmal, hprod, hfocus]
  omega

/-- C9 witness: concrete two-sample run with one malformed timestamp. -/
theorem analyzeEnergyPatterns_skips_malformed_witness :
    analyzeEnergyPatterns [demoActivity, malformedActivity] = analyzeEnergyPatterns [demoActivity] ∧
    parseWarnings [demoActivity, malformedActivity] = parseWarnings [demoActivity] + 1 :=
  have h := analyzeEnergyPatterns_skips_malformed [demoActivity] [] malformedActivity rfl
    (by with_unfolding_all decide) (by with_unfolding_all decide) (by simp)
  ⟨h.2.1, h.2.2⟩

/-- C10: a sample with `productivity_score == 0`, `focus_score == 0` or
an absent/falsy timestamp is silently excluded by the truthiness guard:
it contributes to no hourly or daily bucket, no warning is logged for
it, and the profile equals the one computed without it. -/
theorem analyzeEnergyPatterns_falsy_fields_skipped (l1 l2 : List Activity) (a : Activity)
    (h : a.productivity_score = 0 ∨ a.focus_score = 0 ∨ a.timestamp = .absent) :
    energyEvents (l1 ++ a :: l2) = energyEvents (l1 ++ l2) ∧
    parseWarnings (l1 ++ a :: l2) = parseWarnings (l1 ++ l2) ∧
    (l1 ++ l2 ≠ [] →
      analyzeEnergyPatterns (l1 ++ a :: l2) = analyzeEnergyPatterns (l1 ++ l2)) := by
  have hev : energyEvents (l1 ++ a :: l2) = energyEvents (l1 ++ l2) := by
    rcases h with h | h | h
    · cases ht : a.timestamp <;>
        simp [energyEvents, List.filterMap_append, List.filterMap_cons, ht, h]
    · cases ht : a.timestamp <;>
        simp [energyEvents, List.filterMap_append, List.filterMap_cons, ht, h]
    · simp [energyEvents, List.filterMap_append, List.filterMap_cons, h]
  have hw : parseWarnings (l1 ++ a :: l2) = parseWarnings (l1 ++ l2) := by
    rcases h with h | h | h <;>
      simp [parseWarnings, List.countP_append, List.countP_cons, h]
  exact ⟨hev, hw, fun hne => analyzeEnergyPatterns_congr _ _ hev (by simp) hne⟩

/-- C10 witness: a zero-productivity sample changes nothing. -/
theorem analyzeEnergyPatterns_falsy_fields_skipped_witness :
    energyEvents [demoActivity, zeroScoreActivity] = energyEvents [demoActivity] ∧
    analyzeEnergyPatterns [demoActivity, zeroScoreActivity] = analyzeEnergyPatterns [demoActivity] :=
  have h := analyzeEnergyPatterns_falsy_fields_skipped [demoActivity] [] zeroScoreActivity
    (Or.inl rfl)
  ⟨h.1, h.2.2 (by simp)⟩

end Pulse
